import Mathlib

/-!
Shallow embedding of the federated training core of
`efl/framework/model.py` (classes `Model` and `FederalModel`), covering:
the per-task registration maps, the compile-time input invocation, the
loss reduction, the train-op assembly with the global-step increment, and
the federated minimize algorithm (loss-source assembly, peer-gradient
computation and reply, null-coalescing local gradient combination,
optimizer apply with its ValueError handler).

Tensors are modelled symbolically as graph expressions: the TensorFlow
graph never evaluates during compile, and the Python code only ever
compares tensors by identity, builds new nodes (reduce, add, zeros_like)
and asks the differentiation engine for gradients.  The differentiation
engine itself is external to the file under verification and is passed in
as an oracle mapping (loss source, upstream gradient, target) to an
optional gradient tensor, with None meaning that no gradient path exists.
-/

/-- Symbolic tensor expressions: graph nodes created by the code under
verification.  node ids stand for pre-existing graph tensors, the other
constructors for the ops the embedded code itself creates. -/
inductive Tensor
  | node (id : Nat)
  | reduceMean (t : Tensor)
  | reduceSum (t : Tensor)
  | customF (id : Nat) (t : Tensor)
  | zerosLike (t : Tensor)
  | addT (a : Tensor) (b : Tensor)
  | sliceAddT (a : Tensor) (b : Tensor)
deriving DecidableEq, Repr

/-- Values stored in an opt_config dict: strings or Python callables
(identified by an id, applied symbolically via Tensor.customF). -/
inductive ConfigVal
  | s (v : String)
  | f (id : Nat)
deriving DecidableEq, Repr

/-- A Python dict of configuration entries, as an association list with
unique keys. -/
abbrev OptDict := List (String × ConfigVal)

/-- Python exceptions distinguished by the code under verification:
except ValueError catches only valueError. -/
inductive PyErr
  | valueError (msg : String)
  | typeError (msg : String)
deriving DecidableEq, Repr

/-- Python dict.pop(key, default): returns the stored value or the
default, and removes the key. -/
def dictPop (cfg : OptDict) (k : String) (dflt : ConfigVal) : ConfigVal × OptDict :=
  ((List.lookup k cfg).getD dflt, List.filter (fun p => decide (p.1 ≠ k)) cfg)

/-- Decidable equality for Except values, so concrete runs of the
embedded code can be checked by decide. -/
instance {e a : Type} [DecidableEq e] [DecidableEq a] : DecidableEq (Except e a) := fun x y =>
  match x, y with
  | .error u, .error v =>
    if h : u = v then .isTrue (by rw [h])
    else .isFalse (fun hc => h (Except.error.inj hc))
  | .ok u, .ok v =>
    if h : u = v then .isTrue (by rw [h])
    else .isFalse (fun hc => h (Except.ok.inj hc))
  | .error _, .ok _ => .isFalse (fun hc => Except.noConfusion hc)
  | .ok _, .error _ => .isFalse (fun hc => Except.noConfusion hc)

/-- Model._reduce_loss, building the reduction symbolically: mean for
the string mean, sum for the string sum, a callable applied to the loss,
and mean plus a logged warning for any other value; a None loss passes
through untouched.  Returns the reduction result and the warnings
logged. -/
def reduceLossSym (loss : Option Tensor) (rf : ConfigVal) : Option Tensor × List String :=
  match loss with
  | none => (none, [])
  | some l =>
    match rf with
    | .s sv =>
      if sv = "mean" then (some (Tensor.reduceMean l), [])
      else if sv = "sum" then (some (Tensor.reduceSum l), [])
      else (some (Tensor.reduceMean l),
        ["No such reduce function called " ++ sv ++ ", it will use mean by default."])
    | .f i => (some (Tensor.customF i l), [])

/-- A RecvRecord created by recv(..., require_grad=True): the channel
name, the received tensor, and the variable scope the received value
originates from.  The scope field is modelled from the spec: the code
filters received values by originating variable scope through
communicator_util.get_recv_grad_vars, whose source is not under src. -/
structure RecvRec where
  name : String
  value : Tensor
  scope : String
deriving DecidableEq, Repr

/-- Modelled from the spec: communicator_util.get_recv_grad_vars (source
not under src) returns the RecvRecords of the task whose originating
variable scope matches the variable scope of the binding being
minimized, as (name, value) pairs. -/
def get_recv_grad_vars (records : List RecvRec) (var_scope : String) : List (String × Tensor) :=
  (records.filter (fun r => decide (r.scope = var_scope))).map (fun r => (r.name, r.value))

/-- The differentiation-engine oracle: compute_gradients and the plain
gradients call both ask it for the gradient of one loss source, under an
optional upstream gradient, with respect to one target tensor; none
means no gradient path exists. -/
def GradOracle := Tensor → Option Tensor → Tensor → Option Tensor

/-- Input of one _minimize call: the task-level loss, the SendRecords of
the task as (sent tensor, pending received upstream gradient) pairs, the
RecvRecords of the task, the binding (variable list, variable scope),
whether opt_config appears among opt.compute_gradients code varnames,
the differentiation oracle, and the opt_config dict popped from kwargs
(the user-supplied dict or the module-level _DEFAULT_OPT_CONFIG, shared
between calls and threaded explicitly here). -/
structure MinInput where
  loss : Option Tensor
  requireGradOps : List (Tensor × Tensor)
  recvRecords : List RecvRec
  varList : List Tensor
  varScope : String
  hasOptConfigParam : Bool
  gradOracle : GradOracle
  cfg : OptDict

/-- Everything one _minimize call produces or mutates: the gradient
messages sent to the peer, the warnings logged, the opt_config dict
after its pops, the REDUCE and BACKEND_MODE values actually read (none
when the corresponding pop is never reached), and the returned training
sub-op (the applied (gradient, variable) pairs) or the Python exception
that escaped the call. -/
@[ext]
structure MinOut where
  sends : List (String × Tensor)
  warns : List String
  cfg : OptDict
  reduceUsed : Option ConfigVal
  backendUsed : Option ConfigVal
  result : Except PyErr (List (Tensor × Tensor))

/-- Python membership test loss in send_ops (tensor equality is
identity in TF1 graphs, modelled as equality of symbolic nodes); a None
loss is never a member. -/
def lossInSendOps : Option Tensor → List Tensor → Bool
  | none, _ => false
  | some l, sendOps => decide (l ∈ sendOps)

/-- Result of the loss-source assembly step of FederalModel._minimize
(lines 556-568). -/
structure Assembled where
  lossList : List (Option Tensor)
  gradLoss : List (Option Tensor)
  cfg : OptDict
  warns : List String
  reduceUsed : Option ConfigVal

/-- Loss-source assembly of FederalModel._minimize: if the local loss is
one of the sent values, the sources are the sent values paired with the
pending upstream gradients; otherwise the local loss (reduced, with the
REDUCE key popped from opt_config, exactly when opt.compute_gradients
does not accept an opt_config parameter) is prepended to the sent
values, paired with None prepended to the pending gradients. -/
def assembleLossSources (loss : Option Tensor) (requireGradOps : List (Tensor × Tensor))
    (hasOptConfigParam : Bool) (cfg : OptDict) : Assembled :=
  let sendOps := requireGradOps.map Prod.fst
  let recvGradOps := requireGradOps.map Prod.snd
  if lossInSendOps loss sendOps then
    ⟨sendOps.map some, recvGradOps.map some, cfg, [], none⟩
  else if hasOptConfigParam then
    ⟨loss :: sendOps.map some, none :: recvGradOps.map some, cfg, [], none⟩
  else
    let rd := dictPop cfg ("REDUCE") (ConfigVal.s "mean")
    let r := reduceLossSym loss rd.1
    ⟨r.1 :: sendOps.map some, none :: recvGradOps.map some, rd.2, r.2, some rd.1⟩

/-- One per-source gradient list for every loss source that is not the
None placeholder: the body of the for y, g in zip(loss, grad_loss) loops
of FederalModel._minimize, asking the oracle for the gradient of y with
respect to every target in xs under upstream gradient g. -/
def perSourceGrads (oracle : GradOracle) (lossList gradLoss : List (Option Tensor))
    (xs : List Tensor) : List (List (Option Tensor)) :=
  (List.zip lossList gradLoss).filterMap (fun p =>
    match p.1 with
    | none => none
    | some y => some (xs.map (oracle y p.2)))

/-- tf.add applied by tf.nest.map_structure in the noise-mode peer
combination: adding a missing (None) gradient raises a ValueError during
graph construction. -/
def tfAddOpt (a b : Option Tensor) : Except PyErr Tensor :=
  match a, b with
  | some x, some y => Except.ok (Tensor.addT x y)
  | _, _ => Except.error (PyErr.valueError "None values not supported.")

/-- Element-wise strict sum of two per-source gradient lists, as
tf.nest.map_structure(tf.add, a, b) performs it. -/
def strictAddLists : List (Option Tensor) → List (Option Tensor) →
    Except PyErr (List (Option Tensor))
  | [], [] => Except.ok []
  | x :: xs, y :: ys =>
    match tfAddOpt x y with
    | .error e => .error e
    | .ok z =>
      match strictAddLists xs ys with
      | .error e => .error e
      | .ok rest => .ok (some z :: rest)
  | _, _ => Except.error (PyErr.valueError "The two structures do not match")

/-- The accumulator loop of the noise-mode combination: send_grads
starts as None and each per-source list is either taken as-is (the
first one) or strictly summed into the accumulator. -/
def combineStrictGo : Option (List (Option Tensor)) → List (List (Option Tensor)) →
    Except PyErr (Option (List (Option Tensor)))
  | acc, [] => .ok acc
  | none, l :: ls => combineStrictGo (some l) ls
  | some s, l :: ls =>
    match strictAddLists s l with
    | .error e => .error e
    | .ok s2 => combineStrictGo (some s2) ls

/-- The noise-mode combination of the per-source gradient lists
(lines 584-589); returns none when there was no list at all. -/
def combineStrict (ls : List (List (Option Tensor))) :
    Except PyErr (Option (List (Option Tensor))) :=
  combineStrictGo none ls

/-- Modelled from the spec: gradients_impl.gradients (the external
differentiation engine, direct mode) computes, for every target, the sum
of the per-source gradients that exist, returning None exactly when no
source has a gradient path; a None entry among the ys raises. -/
def tfGradients (oracle : GradOracle) (lossList gradLoss : List (Option Tensor))
    (xs : List Tensor) : Except PyErr (List (Option Tensor)) :=
  if lossList.any (fun y => y.isNone) then
    Except.error (PyErr.valueError "ys must not contain None")
  else
    Except.ok (xs.map (fun x =>
      (List.zip lossList gradLoss).foldl
        (fun acc p =>
          match p.1 with
          | none => acc
          | some y =>
            match acc, oracle y p.2 x with
            | none, g => g
            | some a, none => some a
            | some a, some g => some (Tensor.addT a g))
        none))

/-- The reply loop of FederalModel._minimize (lines 593-597): for every
(name, value) received pair and its combined gradient, send the gradient
under name_grad when it is defined and a zeros_like of the received
value otherwise. -/
def peerSendList (recvGrads : List (String × Tensor)) (sg : List (Option Tensor)) :
    List (String × Tensor) :=
  (List.zip recvGrads sg).map (fun p =>
    (p.1.1 ++ "_grad", p.2.getD (Tensor.zerosLike p.1.2)))

/-- The peer-gradient computation of FederalModel._minimize under the
chosen backend: noise mode computes one gradient list per loss source
and strictly sums them (send_grads staying None when no source
contributed, which makes the subsequent zip raise a TypeError); direct
mode issues one joint gradients call. -/
def peerCombinedGrads (oracle : GradOracle) (recvVals : List Tensor)
    (lossList gradLoss : List (Option Tensor)) (backend : ConfigVal) :
    Except PyErr (List (Option Tensor)) :=
  if backend = ConfigVal.s "noise" then
    match combineStrict (perSourceGrads oracle lossList gradLoss recvVals) with
    | .error e => .error e
    | .ok none => .error (PyErr.typeError "zip argument must support iteration")
    | .ok (some sg) => .ok sg
  else
    tfGradients oracle lossList gradLoss recvVals

/-- The outcome of the peer-gradient block of FederalModel._minimize. -/
structure PeerOut where
  sends : List (String × Tensor)
  backendUsed : Option ConfigVal
  cfg : OptDict
  err : Except PyErr Unit

/-- The peer-gradient block (lines 570-597): entered only when matching
received values exist; pops BACKEND_MODE (default noise) from the shared
opt_config, computes the combined gradients and sends one reply per
received value; an exception here escapes before any reply is sent and
before the local phase runs. -/
def peerPhase (oracle : GradOracle) (recvGrads : List (String × Tensor))
    (lossList gradLoss : List (Option Tensor)) (cfg : OptDict) : PeerOut :=
  if recvGrads.length > 0 then
    match peerCombinedGrads oracle (recvGrads.map Prod.snd) lossList gradLoss
        (dictPop cfg ("BACKEND_MODE") (ConfigVal.s "noise")).1 with
    | .error e =>
      ⟨[], some (dictPop cfg ("BACKEND_MODE") (ConfigVal.s "noise")).1,
       (dictPop cfg ("BACKEND_MODE") (ConfigVal.s "noise")).2, .error e⟩
    | .ok sg =>
      ⟨peerSendList recvGrads sg,
       some (dictPop cfg ("BACKEND_MODE") (ConfigVal.s "noise")).1,
       (dictPop cfg ("BACKEND_MODE") (ConfigVal.s "noise")).2, .ok ()⟩
  else ⟨[], none, cfg, .ok ()⟩

/-- The inner _safe_slice_add of FederalModel._minimize, generic over
the numeric combination used when both gradients are defined: a missing
gradient on either side yields the other side unchanged. -/
def safe_slice_add {α : Type} (add : α → α → α) : Option α → Option α → Option α
  | none, b => b
  | a, none => a
  | some x, some y => some (add x y)

/-- The local combination loop (lines 621-626): grads_list starts as
None and each per-source gradient list is folded in element-wise with
_safe_slice_add via tf.nest.map_structure. -/
def localCombine {α : Type} (add : α → α → α) (ls : List (List (Option α))) :
    Option (List (Option α)) :=
  ls.foldl
    (fun acc l =>
      match acc with
      | none => some l
      | some s => some (List.zipWith (safe_slice_add add) s l))
    none

/-- opt.apply_gradients: raises a ValueError when no variable has a
defined gradient (which covers the empty binding as well); otherwise
applies and returns the pairs with a defined gradient. -/
def applyGradients (gvs : List (Option Tensor × Tensor)) :
    Except PyErr (List (Tensor × Tensor)) :=
  if gvs.all (fun p => p.1.isNone) then
    Except.error (PyErr.valueError "No gradients provided for any variable")
  else
    Except.ok (gvs.filterMap (fun p => p.1.map (fun g => (g, p.2))))

/-- The guarded local phase of FederalModel._minimize (lines 608-632):
compute one gradient list per loss source against the binding variable
list, combine them with _safe_slice_add, zip with the variables and
apply.  A grads_list of None makes the zip raise a TypeError, which the
except ValueError clause does not catch.  A ValueError from apply is
caught, but the handler evaluates e + str, and adding an exception to a
string is itself a TypeError in Python, raised before tf.logging.warn
runs; so the handler logs nothing and a TypeError escapes instead. -/
def localPhase (oracle : GradOracle) (lossList gradLoss : List (Option Tensor))
    (varList : List Tensor) : Except PyErr (List (Tensor × Tensor)) :=
  let gl := perSourceGrads oracle lossList gradLoss varList
  match localCombine Tensor.sliceAddT gl with
  | none => .error (PyErr.typeError "zip argument must support iteration")
  | some gradsList =>
    match applyGradients (List.zip gradsList varList) with
    | .ok r => .ok r
    | .error (.valueError _) =>
      .error (PyErr.typeError "unsupported operand types for add: ValueError and str")
    | .error e => .error e

/-- FederalModel._minimize: loss-source assembly, peer-gradient block,
then the guarded local gradient computation and apply.  The opt_config
dict is threaded in and out explicitly to model that the same Python
dict object is shared by every call of one compile. -/
def federalMinimize (inp : MinInput) : MinOut :=
  let recvGrads := get_recv_grad_vars inp.recvRecords inp.varScope
  let a := assembleLossSources inp.loss inp.requireGradOps inp.hasOptConfigParam inp.cfg
  let p := peerPhase inp.gradOracle recvGrads a.lossList a.gradLoss a.cfg
  { sends := p.sends
    warns := a.warns
    cfg := p.cfg
    reduceUsed := a.reduceUsed
    backendUsed := p.backendUsed
    result :=
      match p.err with
      | .error e => .error e
      | .ok _ => localPhase inp.gradOracle a.lossList a.gradLoss inp.varList }

/-- Model._minimize (the non-federated baseline, lines 335-343): pop
REDUCE and reduce the loss when the optimizer does not accept an
opt_config parameter, compute the gradients of the single loss with no
upstream gradient, and apply them; no records are consulted, nothing is
sent, and no exception is caught. -/
def modelMinimize (inp : MinInput) : MinOut :=
  let step :=
    if inp.hasOptConfigParam then (inp.loss, inp.cfg, ([] : List String), (none : Option ConfigVal))
    else
      let rd := dictPop inp.cfg ("REDUCE") (ConfigVal.s "mean")
      let r := reduceLossSym inp.loss rd.1
      (r.1, rd.2, r.2, some rd.1)
  match step with
  | (lossR, cfg2, ws, ru) =>
    { sends := []
      warns := ws
      cfg := cfg2
      reduceUsed := ru
      backendUsed := none
      result :=
        match lossR with
        | none => .error (PyErr.valueError "Loss must not be None")
        | some l =>
          applyGradients (inp.varList.map (fun v => (inp.gradOracle l none v, v))) }

/-- The three per-task registration maps of Model, task keys being an
optional task name (None for single-task training). -/
structure ModelFns where
  input_fns : List (Option String × Nat)
  loss_fns : List (Option String × Nat)
  opt_fns : List (Option String × Nat)
deriving DecidableEq, Repr

/-- Printable form of a task key, used in the duplicate-registration
error messages. -/
def taskStr : Option String → String
  | none => "None"
  | some t => t

/-- Model.input_fn: registering an input function for a task already
holding one raises a ValueError naming the task; otherwise the function
is stored. -/
def registerInputFn (m : ModelFns) (task : Option String) (fn : Nat) :
    Except String ModelFns :=
  if (List.lookup task m.input_fns).isSome then
    .error ("input define twice for task:" ++ taskStr task)
  else
    .ok { m with input_fns := m.input_fns ++ [(task, fn)] }

/-- Model.loss_fn: same duplicate check for the loss function map. -/
def registerLossFn (m : ModelFns) (task : Option String) (fn : Nat) :
    Except String ModelFns :=
  if (List.lookup task m.loss_fns).isSome then
    .error ("loss define twice for task:" ++ taskStr task)
  else
    .ok { m with loss_fns := m.loss_fns ++ [(task, fn)] }

/-- Model.optimizer_fn: same duplicate check for the optimizer map. -/
def registerOptimizerFn (m : ModelFns) (task : Option String) (fn : Nat) :
    Except String ModelFns :=
  if (List.lookup task m.opt_fns).isSome then
    .error ("optimizer define twice for task:" ++ taskStr task)
  else
    .ok { m with opt_fns := m.opt_fns ++ [(task, fn)] }

/-- Return values an input function can produce, as far as the compile
loop can distinguish them: Sample and FederalSample instances pass the
isinstance check, pyNone is the falsy non-sample value None, and other
stands for any remaining value with its Python truthiness. -/
inductive PyObj
  | sample
  | federalSample
  | pyNone
  | other (truthy : Bool)
deriving DecidableEq, Repr

/-- The isinstance(x, (Sample, FederalSample)) check. -/
def PyObj.isSampleInst : PyObj → Bool
  | .sample => true
  | .federalSample => true
  | _ => false

/-- Python truthiness of the modelled values: None is falsy, sample
objects are truthy, other carries its own truthiness. -/
def PyObj.truthy : PyObj → Bool
  | .pyNone => false
  | .other t => t
  | _ => true

/-- The two task-scope modes. -/
inductive Mode
  | train
  | eval
deriving DecidableEq, Repr

/-- The per-task input block of Model._internal_compile (lines 357-368):
invoke the input function under TRAIN scope, raise unless it returns a
Sample or FederalSample, then invoke it under EVAL scope; the EVAL
result is type-checked and recorded only when it is truthy, a falsy EVAL
result being skipped silently.  Returns the scopes the input function
was invoked under, in order, and the recorded (mode, sample) inputs or
the compile-time error. -/
def compileTaskInput (input_fn : Mode → PyObj) :
    List Mode × Except String (List (Mode × PyObj)) :=
  let ts := input_fn Mode.train
  if ts.isSampleInst = false then
    ([Mode.train],
     .error ("input_fn must return a efl.Sample or efl.FederalSample for TRAIN"))
  else
    let es := input_fn Mode.eval
    if es.truthy then
      if es.isSampleInst = false then
        ([Mode.train, Mode.eval],
         .error ("input_fn must return a efl.Sample or efl.FederalSample for EVAL"))
      else
        ([Mode.train, Mode.eval], .ok [(Mode.train, ts), (Mode.eval, es)])
    else
      ([Mode.train, Mode.eval], .ok [(Mode.train, ts)])

/-- A graph op in the train-op assembly: its id, how much it adds to the
global step counter when executed, and its control dependencies (the
ids of the ops that must complete strictly before it). -/
structure GOp where
  id : Nat
  stepIncr : Nat
  deps : List Nat
deriving DecidableEq, Repr

/-- Lines 393-394 of Model._internal_compile: under
control_dependencies(optimize_ops), create the single
global_step.assign_add(1) op for the task. -/
def buildStepOp (freshId : Nat) (optimizeOps : List GOp) : GOp :=
  { id := freshId, stepIncr := 1, deps := optimizeOps.map (fun op => op.id) }

/-- Model.add_train_op: append the op to the train-op list of the
task. -/
def addTrainOp (trainOps : List GOp) (op : GOp) : List GOp :=
  trainOps ++ [op]

/-- Model._reduce_loss at the value level, for losses realised as
rational vectors: mean and sum collapse to a scalar, a callable is
applied, any other value warns and falls back to mean.  tf.reduce_mean
of a vector is its sum divided by its length. -/
inductive ReduceArg
  | pystr (sv : String)
  | callable (fn : List ℚ → List ℚ)

/-- The numeric reading of Model._reduce_loss: result together with the
warnings logged. -/
def reduce_loss_num : Option (List ℚ) → ReduceArg → Option (List ℚ) × List String
  | none, _ => (none, [])
  | some l, .pystr sv =>
    if sv = "mean" then (some [l.sum / (l.length : ℚ)], [])
    else if sv = "sum" then (some [l.sum], [])
    else (some [l.sum / (l.length : ℚ)],
      ["No such reduce function called " ++ sv ++ ", it will use mean by default."])
  | some l, .callable fn => (some (fn l), [])

/-- Modelled from the spec: slice_op.slice_add (source not under src)
combines two defined gradients numerically; realised as element-wise
addition of gradient vectors. -/
def slice_add (a b : List Int) : List Int :=
  List.zipWith (fun x y => x + y) a b

/-- The default opt_config dict of the module (_DEFAULT_OPT_CONFIG). -/
def defaultOptConfig : OptDict :=
  [("REDUCE", ConfigVal.s "mean"), ("BACKEND_MODE", ConfigVal.s "noise")]

/-- Concrete binding input exercising the ValueError handler of
FederalModel._minimize: a defined local loss, no send or recv records,
one variable, and an oracle with no gradient path to it, so
apply_gradients raises a ValueError inside the try block. -/
def inC1 : MinInput :=
  { loss := some (Tensor.node 0)
    requireGradOps := []
    recvRecords := []
    varList := [Tensor.node 1]
    varScope := "scope"
    hasOptConfigParam := true
    gradOracle := fun _ _ _ => none
    cfg := defaultOptConfig }

/-- Concrete binding input for the peer-reply block in noise mode with
two loss sources (local loss and one sent value) and one matching
received value whose gradient exists under the local loss but not under
the sent value. -/
def inC3x : MinInput :=
  { loss := some (Tensor.node 0)
    requireGradOps := [(Tensor.node 1, Tensor.node 2)]
    recvRecords := [⟨"act", Tensor.node 3, "scope"⟩]
    varList := [Tensor.node 4]
    varScope := "scope"
    hasOptConfigParam := true
    gradOracle := fun y _ _ => if y = Tensor.node 1 then none else some (Tensor.node 7)
    cfg := defaultOptConfig }

/-- Concrete binding input for the peer-reply block in noise mode with a
single loss source and one matching received value. -/
def inC3w : MinInput :=
  { loss := some (Tensor.node 0)
    requireGradOps := []
    recvRecords := [⟨"act", Tensor.node 3, "scope"⟩]
    varList := [Tensor.node 4]
    varScope := "scope"
    hasOptConfigParam := true
    gradOracle := fun _ _ _ => some (Tensor.node 7)
    cfg := defaultOptConfig }

/-- Concrete binding input with no send records, no recv records, a
defined loss and a defined gradient for the single variable. -/
def inC5 : MinInput :=
  { loss := some (Tensor.node 0)
    requireGradOps := []
    recvRecords := []
    varList := [Tensor.node 4]
    varScope := "scope"
    hasOptConfigParam := false
    gradOracle := fun _ _ _ => some (Tensor.node 7)
    cfg := defaultOptConfig }

/-- Same binding input as inC5 except that one received value requiring
a gradient matches the binding scope. -/
def inC5x : MinInput :=
  { inC5 with recvRecords := [⟨"act", Tensor.node 3, "scope"⟩] }

/-- First binding of a two-binding compile with a user-supplied
BACKEND_MODE of direct: this binding has no matching received values,
so it never reaches the BACKEND_MODE pop. -/
def inC6a : MinInput :=
  { loss := some (Tensor.node 0)
    requireGradOps := []
    recvRecords := []
    varList := [Tensor.node 4]
    varScope := "scope"
    hasOptConfigParam := true
    gradOracle := fun _ _ _ => some (Tensor.node 7)
    cfg := [("REDUCE", ConfigVal.s "mean"), ("BACKEND_MODE", ConfigVal.s "direct")] }

/-- Second binding of the same compile: it receives the shared
opt_config dict exactly as the first binding left it, and has a matching
received value, so it reads BACKEND_MODE. -/
def inC6b : MinInput :=
  { loss := some (Tensor.node 0)
    requireGradOps := []
    recvRecords := [⟨"act", Tensor.node 3, "other_scope"⟩]
    varList := [Tensor.node 5]
    varScope := "other_scope"
    hasOptConfigParam := true
    gradOracle := fun _ _ _ => some (Tensor.node 8)
    cfg := (federalMinimize inC6a).cfg }

/-- Helper: a successful strict element-wise sum has the length of its
first argument. -/
theorem strictAddLists_length (a : List (Option Tensor)) :
    ∀ (b c : List (Option Tensor)), strictAddLists a b = .ok c → c.length = a.length := by
  induction a with
  | nil =>
    intro b c h
    cases b with
    | nil => simp [strictAddLists] at h; simp [← h]
    | cons y ys => simp [strictAddLists] at h
  | cons x xs ih =>
    intro b c h
    cases b with
    | nil => simp [strictAddLists] at h
    | cons y ys =>
      rw [strictAddLists] at h
      cases hadd : tfAddOpt x y with
      | error e => rw [hadd] at h; simp at h
      | ok z =>
        rw [hadd] at h
        cases hrest : strictAddLists xs ys with
        | error e => rw [hrest] at h; simp at h
        | ok rest =>
          rw [hrest] at h
          simp at h
          rw [← h]
          simp [ih ys rest hrest]

/-- Helper: the noise-mode accumulator loop preserves a common list
length of all per-source lists. -/
theorem combineStrictGo_length (n : Nat) :
    ∀ (ls : List (List (Option Tensor))) (acc : Option (List (Option Tensor)))
      (sg : List (Option Tensor)),
      (∀ l ∈ ls, l.length = n) → (∀ s, acc = some s → s.length = n) →
      combineStrictGo acc ls = .ok (some sg) → sg.length = n := by
  intro ls
  induction ls with
  | nil =>
    intro acc sg _ hacc h
    simp [combineStrictGo] at h
    exact hacc sg h
  | cons l ls ih =>
    intro acc sg hls hacc h
    cases acc with
    | none =>
      rw [combineStrictGo] at h
      refine ih (some l) sg (fun x hx => hls x (List.mem_cons_of_mem l hx)) ?_ h
      intro s hs
      cases hs
      exact hls l (List.mem_cons_self l ls)
    | some s =>
      rw [combineStrictGo] at h
      cases hadd : strictAddLists s l with
      | error e => rw [hadd] at h; simp at h
      | ok s2 =>
        rw [hadd] at h
        refine ih (some s2) sg (fun x hx => hls x (List.mem_cons_of_mem l hx)) ?_ h
        intro s3 hs3
        cases hs3
        rw [strictAddLists_length s l s2 hadd]
        exact hacc s rfl

/-- Helper: every per-source gradient list has one entry per target. -/
theorem perSourceGrads_length (oracle : GradOracle) (lossList gradLoss : List (Option Tensor))
    (xs : List Tensor) :
    ∀ l ∈ perSourceGrads oracle lossList gradLoss xs, l.length = xs.length := by
  intro l hl
  rw [perSourceGrads] at hl
  rw [List.mem_filterMap] at hl
  obtain ⟨p, _, hp⟩ := hl
  cases hy : p.1 with
  | none => rw [hy] at hp; simp at hp
  | some y =>
    rw [hy] at hp
    simp at hp
    rw [← hp]
    simp

/-- Helper: a successful peer-gradient combination yields one optional
gradient per received value, in either backend mode. -/
theorem peerCombinedGrads_length (oracle : GradOracle) (recvVals : List Tensor)
    (lossList gradLoss : List (Option Tensor)) (backend : ConfigVal)
    (sg : List (Option Tensor))
    (h : peerCombinedGrads oracle recvVals lossList gradLoss backend = .ok sg) :
    sg.length = recvVals.length := by
  rw [peerCombinedGrads] at h
  by_cases hb : backend = ConfigVal.s "noise"
  · rw [if_pos hb] at h
    cases hc : combineStrict (perSourceGrads oracle lossList gradLoss recvVals) with
    | error e => rw [hc] at h; simp at h
    | ok o =>
      rw [hc] at h
      cases o with
      | none => simp at h
      | some sg2 =>
        simp at h
        rw [← h]
        exact combineStrictGo_length recvVals.length _ none sg2
          (perSourceGrads_length oracle lossList gradLoss recvVals)
          (fun s hs => by cases hs) hc
  · rw [if_neg hb] at h
    rw [tfGradients] at h
    by_cases hy : lossList.any (fun y => y.isNone)
    · rw [if_pos hy] at h; simp at h
    · rw [if_neg hy] at h
      simp at h
      rw [← h]
      simp

/-- Helper: names of the peer replies, one per received value. -/
theorem peerSendList_names :
    ∀ (rg : List (String × Tensor)) (sg : List (Option Tensor)),
      rg.length = sg.length →
      (peerSendList rg sg).map Prod.fst = rg.map (fun r => r.1 ++ "_grad") := by
  intro rg
  induction rg with
  | nil => intro sg _; simp [peerSendList]
  | cons r rs ih =>
    intro sg hlen
    cases sg with
    | nil => simp at hlen
    | cons g gs =>
      simp [peerSendList] at ih ⊢
      exact ih gs (by simpa using hlen)

/-- Helper: zipping a mapped list with its source pairs each element
with its image. -/
theorem zip_map_self {α β : Type} (f : α → β) :
    ∀ xs : List α, List.zip (xs.map f) xs = xs.map (fun x => (f x, x)) := by
  intro xs
  induction xs with
  | nil => simp
  | cons x t ih => simp [ih]

/-- Helper: looking a key up after filtering that key out finds
nothing. -/
theorem lookup_filter_self (k : String) :
    ∀ c : OptDict, List.lookup k (List.filter (fun p => decide (p.1 ≠ k)) c) = none := by
  intro c
  induction c with
  | nil => rfl
  | cons p t ih =>
    rw [List.filter_cons]
    by_cases hp : p.1 = k
    · rw [if_neg (by simp [hp])]
      exact ih
    · rw [if_pos (by simp [hp])]
      rw [List.lookup]
      have hk : (k == p.1) = false := by
        rw [beq_eq_false_iff_ne]
        exact fun he => hp he.symm
      rw [hk]
      exact ih

/-- Helper: filtering preserves the absence of a key. -/
theorem lookup_none_filter (k : String) (q : String × ConfigVal → Bool) :
    ∀ c : OptDict, List.lookup k c = none →
      List.lookup k (List.filter q c) = none := by
  intro c
  induction c with
  | nil => intro _; rfl
  | cons p t ih =>
    intro h
    rw [List.lookup] at h
    cases hk : (k == p.1) with
    | true => rw [hk] at h; simp at h
    | false =>
      rw [hk] at h
      rw [List.filter_cons]
      by_cases hq : q p = true
      · rw [if_pos hq, List.lookup, hk]
        exact ih h
      · rw [if_neg hq]
        exact ih h

/-- Helper: the symbolic reduction of a defined loss is always
defined. -/
theorem reduceLossSym_isSome (l : Tensor) (rf : ConfigVal) :
    ∃ l2, (reduceLossSym (some l) rf).1 = some l2 := by
  cases rf with
  | s sv =>
    by_cases h1 : sv = "mean"
    · exact ⟨Tensor.reduceMean l, by simp [reduceLossSym, h1]⟩
    · by_cases h2 : sv = "sum"
      · exact ⟨Tensor.reduceSum l, by simp [reduceLossSym, h1, h2]⟩
      · exact ⟨Tensor.reduceMean l, by simp [reduceLossSym, h1, h2]⟩
  | f i => exact ⟨Tensor.customF i l, by simp [reduceLossSym]⟩

/-- Helper: appending a fresh binding makes its key found. -/
theorem lookup_append_self {α β : Type} [BEq α] [LawfulBEq α] (k : α) (v : β) :
    ∀ l : List (α × β), List.lookup k l = none →
      List.lookup k (l ++ [(k, v)]) = some v := by
  intro l
  induction l with
  | nil => intro _; simp [List.lookup]
  | cons p t ih =>
    intro h
    rw [List.lookup] at h
    cases hk : (k == p.1) with
    | true => rw [hk] at h; simp at h
    | false =>
      rw [hk] at h
      rw [List.cons_append, List.lookup, hk]
      exact ih h

/-- C1: the claim states that when the local gradient computation or
application in FederalModel._minimize raises a ValueError, _minimize
logs a warning that includes the original error text, returns no
training sub-op, and never lets the exception propagate.  The code
contradicts this: the except ValueError handler evaluates e + str, and
adding an exception object to a string is a TypeError in Python, raised
before tf.logging.warn runs; so nothing is logged, the return statement
is never reached, and a TypeError escapes the call and aborts the
compile.  This theorem runs the embedded code at a failing input (one
variable with no gradient under any loss source, so apply_gradients
raises the ValueError the spec calls legitimate) and shows the
divergence. -/
theorem c1_handler_raises_typeerror :
    applyGradients [(none, Tensor.node 1)]
      = .error (PyErr.valueError "No gradients provided for any variable") ∧
    (federalMinimize inC1).result
      = .error (PyErr.typeError "unsupported operand types for add: ValueError and str") ∧
    (federalMinimize inC1).warns = [] := by
  decide

/-- C2, counterexample: with an optimizer whose compute_gradients
accepts an opt_config parameter, the local loss enters the loss-source
list unreduced, so the list is not reduced(local_loss) followed by the
sent values as the claim states. -/
theorem c2_counterexample :
    (assembleLossSources (some (Tensor.node 0)) [(Tensor.node 1, Tensor.node 2)]
        true defaultOptConfig).lossList
      = [some (Tensor.node 0), some (Tensor.node 1)] ∧
    (assembleLossSources (some (Tensor.node 0)) [(Tensor.node 1, Tensor.node 2)]
        true defaultOptConfig).lossList
      ≠ [some (Tensor.reduceMean (Tensor.node 0)), some (Tensor.node 1)] ∧
    (reduceLossSym (some (Tensor.node 0)) (ConfigVal.s "mean")).1
      = some (Tensor.reduceMean (Tensor.node 0)) := by
  decide

/-- C2, amended: the loss-source assembly of FederalModel._minimize is
as the claim states, except that the local loss is reduced only when the
compute_gradients of the optimizer does not accept an opt_config
parameter; an opt_config-aware optimizer receives the unreduced local
loss.  If the local loss is identical to a sent value, the sources are
exactly the sent values paired with the pending upstream gradients;
otherwise they are the (possibly reduced) local loss followed by the
sent values, paired with None followed by the pending gradients. -/
theorem c2_loss_source_assembly (loss : Option Tensor) (rg : List (Tensor × Tensor))
    (hasOpt : Bool) (cfg : OptDict) :
    (lossInSendOps loss (rg.map Prod.fst) = true →
      (assembleLossSources loss rg hasOpt cfg).lossList = (rg.map Prod.fst).map some ∧
      (assembleLossSources loss rg hasOpt cfg).gradLoss = (rg.map Prod.snd).map some) ∧
    (lossInSendOps loss (rg.map Prod.fst) = false → hasOpt = false →
      (assembleLossSources loss rg hasOpt cfg).lossList
        = (reduceLossSym loss (dictPop cfg ("REDUCE") (ConfigVal.s "mean")).1).1
            :: (rg.map Prod.fst).map some ∧
      (assembleLossSources loss rg hasOpt cfg).gradLoss
        = none :: (rg.map Prod.snd).map some) ∧
    (lossInSendOps loss (rg.map Prod.fst) = false → hasOpt = true →
      (assembleLossSources loss rg hasOpt cfg).lossList
        = loss :: (rg.map Prod.fst).map some ∧
      (assembleLossSources loss rg hasOpt cfg).gradLoss
        = none :: (rg.map Prod.snd).map some) := by
  refine ⟨fun h => ?_, fun h h2 => ?_, fun h h2 => ?_⟩
  · simp [assembleLossSources, h]
  · subst h2; simp [assembleLossSources, h]
  · subst h2; simp [assembleLossSources, h]

/-- C2, witness: the three branches of the assembly at concrete
inputs. -/
theorem c2_witness :
    ((assembleLossSources (some (Tensor.node 0)) [(Tensor.node 0, Tensor.node 2)]
        true defaultOptConfig).lossList = [some (Tensor.node 0)] ∧
     (assembleLossSources (some (Tensor.node 0)) [(Tensor.node 0, Tensor.node 2)]
        true defaultOptConfig).gradLoss = [some (Tensor.node 2)]) ∧
    ((assembleLossSources (some (Tensor.node 0)) ([] : List (Tensor × Tensor))
        false defaultOptConfig).lossList = [some (Tensor.reduceMean (Tensor.node 0))] ∧
     (assembleLossSources (some (Tensor.node 0)) ([] : List (Tensor × Tensor))
        false defaultOptConfig).gradLoss = [none]) ∧
    ((assembleLossSources (some (Tensor.node 0)) [(Tensor.node 1, Tensor.node 2)]
        true defaultOptConfig).lossList
        = [some (Tensor.node 0), some (Tensor.node 1)] ∧
     (assembleLossSources (some (Tensor.node 0)) [(Tensor.node 1, Tensor.node 2)]
        true defaultOptConfig).gradLoss = [none, some (Tensor.node 2)]) := by
  refine ⟨?_, ?_, ?_⟩
  · exact (c2_loss_source_assembly (some (Tensor.node 0)) [(Tensor.node 0, Tensor.node 2)]
      true defaultOptConfig).1 (by decide)
  · exact (c2_loss_source_assembly (some (Tensor.node 0)) [] false defaultOptConfig).2.1
      (by decide) rfl
  · exact (c2_loss_source_assembly (some (Tensor.node 0)) [(Tensor.node 1, Tensor.node 2)]
      true defaultOptConfig).2.2 (by decide) rfl

/-- C4: the null-coalescing combination of per-source gradient lists:
an undefined gradient on either side leaves the other side unchanged
(None is the identity of the combination), two defined gradients are
added element-wise numerically, and the per-source lists of one
_minimize call are combined position-wise by exactly this operation. -/
theorem c4_null_coalescing_add :
    (∀ b : Option (List Int), safe_slice_add slice_add none b = b) ∧
    (∀ a : Option (List Int), safe_slice_add slice_add a none = a) ∧
    (∀ x y : List Int, safe_slice_add slice_add (some x) (some y)
        = some (List.zipWith (fun u v => u + v) x y)) ∧
    (∀ (α : Type) (add : α → α → α) (g1 g2 : List (Option α)),
      localCombine add [g1, g2] = some (List.zipWith (safe_slice_add add) g1 g2)) := by
  refine ⟨?_, ?_, ?_, ?_⟩
  · intro b; cases b <;> rfl
  · intro a; cases a <;> rfl
  · intro x y; rfl
  · intro α add g1 g2; rfl

/-- C7: per task, the train-op assembly creates exactly one
global-step op, it increments the counter by 1, it carries a control
dependency on every optimizer sub-op produced for the task (so it is
ordered strictly after all of them), and it is the op registered in the
train-op list of the task. -/
theorem c7_single_step_increment (fid : Nat) (subOps trainOps : List GOp)
    (h : ∀ op ∈ subOps, op.stepIncr = 0) :
    (buildStepOp fid subOps).stepIncr = 1 ∧
    (∀ op ∈ subOps, op.id ∈ (buildStepOp fid subOps).deps) ∧
    buildStepOp fid subOps ∈ addTrainOp trainOps (buildStepOp fid subOps) ∧
    List.filter (fun op => decide (op.stepIncr ≠ 0))
        (subOps ++ [buildStepOp fid subOps])
      = [buildStepOp fid subOps] := by
  refine ⟨rfl, ?_, ?_, ?_⟩
  · intro op hop
    simp only [buildStepOp]
    exact List.mem_map_of_mem (fun o => o.id) hop
  · simp [addTrainOp]
  · rw [List.filter_append]
    have h1 : List.filter (fun op => decide (op.stepIncr ≠ 0)) subOps = [] := by
      rw [List.filter_eq_nil_iff]
      intro op hop
      simp [h op hop]
    rw [h1]
    simp [buildStepOp]

/-- C7, witness: two apply sub-ops, a fresh id and an empty train-op
list. -/
theorem c7_witness :
    (buildStepOp 10 [⟨1, 0, []⟩, ⟨2, 0, []⟩]).stepIncr = 1 ∧
    (∀ op ∈ [(⟨1, 0, []⟩ : GOp), ⟨2, 0, []⟩],
      op.id ∈ (buildStepOp 10 [⟨1, 0, []⟩, ⟨2, 0, []⟩]).deps) ∧
    buildStepOp 10 [⟨1, 0, []⟩, ⟨2, 0, []⟩]
      ∈ addTrainOp [] (buildStepOp 10 [⟨1, 0, []⟩, ⟨2, 0, []⟩]) ∧
    List.filter (fun op => decide (op.stepIncr ≠ 0))
        ([⟨1, 0, []⟩, ⟨2, 0, []⟩] ++ [buildStepOp 10 [⟨1, 0, []⟩, ⟨2, 0, []⟩]])
      = [buildStepOp 10 [⟨1, 0, []⟩, ⟨2, 0, []⟩]] :=
  c7_single_step_increment 10 [⟨1, 0, []⟩, ⟨2, 0, []⟩] [] (by decide)

/-- C8: the loss reduction applied to a defined loss returns the mean
(the sum divided by the length) for the configured value mean, the sum
for sum, the callable result when a callable is supplied, and for any
other value it logs a warning and falls back to the mean. -/
theorem c8_reduce_loss :
    (∀ l : List ℚ, reduce_loss_num (some l) (ReduceArg.pystr "mean")
        = (some [l.sum / (l.length : ℚ)], [])) ∧
    (∀ l : List ℚ, reduce_loss_num (some l) (ReduceArg.pystr "sum")
        = (some [l.sum], [])) ∧
    (∀ (l : List ℚ) (fn : List ℚ → List ℚ),
      reduce_loss_num (some l) (ReduceArg.callable fn) = (some (fn l), [])) ∧
    (∀ (l : List ℚ) (sv : String), sv ≠ "mean" → sv ≠ "sum" →
      reduce_loss_num (some l) (ReduceArg.pystr sv)
        = (some [l.sum / (l.length : ℚ)],
           ["No such reduce function called " ++ sv ++ ", it will use mean by default."])) := by
  refine ⟨?_, ?_, ?_, ?_⟩
  · intro l; rfl
  · intro l; rfl
  · intro l fn; rfl
  · intro l sv h1 h2
    simp [reduce_loss_num, h1, h2]

/-- C8, witness: the four reduction behaviors at the loss vector
(1, 3). -/
theorem c8_witness :
    reduce_loss_num (some [(1 : ℚ), 3]) (ReduceArg.pystr "mean")
      = (some [[(1 : ℚ), 3].sum / (([(1 : ℚ), 3].length : ℚ))], []) ∧
    reduce_loss_num (some [(1 : ℚ), 3]) (ReduceArg.pystr "sum")
      = (some [[(1 : ℚ), 3].sum], []) ∧
    reduce_loss_num (some [(1 : ℚ), 3]) (ReduceArg.callable (fun l => l))
      = (some [(1 : ℚ), 3], []) ∧
    reduce_loss_num (some [(1 : ℚ), 3]) (ReduceArg.pystr "max")
      = (some [[(1 : ℚ), 3].sum / (([(1 : ℚ), 3].length : ℚ))],
         ["No such reduce function called " ++ "max" ++ ", it will use mean by default."]) :=
  ⟨(c8_reduce_loss.1 [(1 : ℚ), 3]),
   (c8_reduce_loss.2.1 [(1 : ℚ), 3]),
   (c8_reduce_loss.2.2.1 [(1 : ℚ), 3] (fun l => l)),
   (c8_reduce_loss.2.2.2 [(1 : ℚ), 3] ("max") (by decide) (by decide))⟩

/-- C9: for each of the three registration kinds, registering succeeds
exactly when no function of that kind is registered for the task, and
after a successful registration a second one for the same task fails
with the duplicate-definition error while the first registration stays
in place. -/
theorem c9_register_once (m : ModelFns) (task : Option String) (fn fn2 : Nat) :
    ((∃ m2, registerInputFn m task fn = .ok m2)
      ↔ List.lookup task m.input_fns = none) ∧
    (List.lookup task m.input_fns = none →
      ∃ m2, registerInputFn m task fn = .ok m2 ∧
        List.lookup task m2.input_fns = some fn ∧
        registerInputFn m2 task fn2
          = .error ("input define twice for task:" ++ taskStr task)) ∧
    ((∃ m2, registerLossFn m task fn = .ok m2)
      ↔ List.lookup task m.loss_fns = none) ∧
    (List.lookup task m.loss_fns = none →
      ∃ m2, registerLossFn m task fn = .ok m2 ∧
        List.lookup task m2.loss_fns = some fn ∧
        registerLossFn m2 task fn2
          = .error ("loss define twice for task:" ++ taskStr task)) ∧
    ((∃ m2, registerOptimizerFn m task fn = .ok m2)
      ↔ List.lookup task m.opt_fns = none) ∧
    (List.lookup task m.opt_fns = none →
      ∃ m2, registerOptimizerFn m task fn = .ok m2 ∧
        List.lookup task m2.opt_fns = some fn ∧
        registerOptimizerFn m2 task fn2
          = .error ("optimizer define twice for task:" ++ taskStr task)) := by
  refine ⟨?_, ?_, ?_, ?_, ?_, ?_⟩
  · constructor
    · rintro ⟨m2, hm2⟩
      by_contra hl
      rw [registerInputFn, if_pos (Option.isSome_iff_ne_none.mpr hl)] at hm2
      exact Except.noConfusion hm2
    · intro hl
      exact ⟨_, by rw [registerInputFn, if_neg (by rw [hl]; simp)]⟩
  · intro hl
    refine ⟨{ m with input_fns := m.input_fns ++ [(task, fn)] }, ?_, ?_, ?_⟩
    · rw [registerInputFn, if_neg (by rw [hl]; simp)]
    · exact lookup_append_self task fn m.input_fns hl
    · rw [registerInputFn,
        if_pos (by rw [lookup_append_self task fn m.input_fns hl]; simp)]
  · constructor
    · rintro ⟨m2, hm2⟩
      by_contra hl
      rw [registerLossFn, if_pos (Option.isSome_iff_ne_none.mpr hl)] at hm2
      exact Except.noConfusion hm2
    · intro hl
      exact ⟨_, by rw [registerLossFn, if_neg (by rw [hl]; simp)]⟩
  · intro hl
    refine ⟨{ m with loss_fns := m.loss_fns ++ [(task, fn)] }, ?_, ?_, ?_⟩
    · rw [registerLossFn, if_neg (by rw [hl]; simp)]
    · exact lookup_append_self task fn m.loss_fns hl
    · rw [registerLossFn,
        if_pos (by rw [lookup_append_self task fn m.loss_fns hl]; simp)]
  · constructor
    · rintro ⟨m2, hm2⟩
      by_contra hl
      rw [registerOptimizerFn, if_pos (Option.isSome_iff_ne_none.mpr hl)] at hm2
      exact Except.noConfusion hm2
    · intro hl
      exact ⟨_, by rw [registerOptimizerFn, if_neg (by rw [hl]; simp)]⟩
  · intro hl
    refine ⟨{ m with opt_fns := m.opt_fns ++ [(task, fn)] }, ?_, ?_, ?_⟩
    · rw [registerOptimizerFn, if_neg (by rw [hl]; simp)]
    · exact lookup_append_self task fn m.opt_fns hl
    · rw [registerOptimizerFn,
        if_pos (by rw [lookup_append_self task fn m.opt_fns hl]; simp)]

/-- C9, witness: registering each of the three kinds on an empty model
for task t1 succeeds, and a second registration fails with the
duplicate error. -/
theorem c9_witness :
    (∃ m2, registerInputFn ⟨[], [], []⟩ (some "t1") 1 = .ok m2 ∧
      List.lookup (some "t1") m2.input_fns = some 1 ∧
      registerInputFn m2 (some "t1") 2
        = .error ("input define twice for task:" ++ taskStr (some "t1"))) ∧
    (∃ m2, registerLossFn ⟨[], [], []⟩ (some "t1") 1 = .ok m2 ∧
      List.lookup (some "t1") m2.loss_fns = some 1 ∧
      registerLossFn m2 (some "t1") 2
        = .error ("loss define twice for task:" ++ taskStr (some "t1"))) ∧
    (∃ m2, registerOptimizerFn ⟨[], [], []⟩ (some "t1") 1 = .ok m2 ∧
      List.lookup (some "t1") m2.opt_fns = some 1 ∧
      registerOptimizerFn m2 (some "t1") 2
        = .error ("optimizer define twice for task:" ++ taskStr (some "t1"))) :=
  ⟨(c9_register_once ⟨[], [], []⟩ (some "t1") 1 2).2.1 (by decide),
   (c9_register_once ⟨[], [], []⟩ (some "t1") 1 2).2.2.2.1 (by decide),
   (c9_register_once ⟨[], [], []⟩ (some "t1") 1 2).2.2.2.2.2 (by decide)⟩

/-- C10, counterexample: an input function returning a Sample under
TRAIN and None under EVAL is a wrong-type EVAL return (None is not a
Sample), yet compilation succeeds without any error, skipping the EVAL
input; the claim that a wrong-type return from the EVAL invocation is a
fatal configuration error is therefore false. -/
theorem c10_counterexample :
    compileTaskInput (fun m => match m with
        | Mode.train => PyObj.sample
        | Mode.eval => PyObj.pyNone)
      = ([Mode.train, Mode.eval], .ok [(Mode.train, PyObj.sample)]) ∧
    PyObj.isSampleInst PyObj.pyNone = false := by
  constructor
  · rfl
  · rfl

/-- C10, amended: per task, compile invokes the input function once
under TRAIN scope and once under EVAL scope.  A TRAIN return that is not
a Sample or FederalSample is a fatal compile error.  The EVAL return is
checked only when it is truthy: a truthy non-Sample EVAL return is a
fatal compile error, a truthy Sample is recorded, and a falsy EVAL
return (such as None) is skipped silently with no EVAL input
recorded. -/
theorem c10_input_invocation (input_fn : Mode → PyObj) :
    ((input_fn Mode.train).isSampleInst = false →
      compileTaskInput input_fn
        = ([Mode.train],
           .error ("input_fn must return a efl.Sample or efl.FederalSample for TRAIN"))) ∧
    ((input_fn Mode.train).isSampleInst = true →
      (compileTaskInput input_fn).1 = [Mode.train, Mode.eval] ∧
      ((input_fn Mode.eval).truthy = true → (input_fn Mode.eval).isSampleInst = false →
        (compileTaskInput input_fn).2
          = .error ("input_fn must return a efl.Sample or efl.FederalSample for EVAL")) ∧
      ((input_fn Mode.eval).truthy = true → (input_fn Mode.eval).isSampleInst = true →
        (compileTaskInput input_fn).2
          = .ok [(Mode.train, input_fn Mode.train), (Mode.eval, input_fn Mode.eval)]) ∧
      ((input_fn Mode.eval).truthy = false →
        (compileTaskInput input_fn).2 = .ok [(Mode.train, input_fn Mode.train)])) := by
  constructor
  · intro h
    rw [compileTaskInput, h]
    simp
  · intro h
    rw [compileTaskInput, h]
    refine ⟨?_, ?_, ?_, ?_⟩
    · simp
      by_cases ht : (input_fn Mode.eval).truthy = true
      · simp [ht]
        by_cases hs : (input_fn Mode.eval).isSampleInst = true
        · simp [hs]
        · simp [eq_false_of_ne_true hs]
      · simp [eq_false_of_ne_true ht]
    · intro ht hs
      simp [ht, hs]
    · intro ht hs
      simp [ht, hs]
    · intro ht
      simp [ht]

/-- C10, witness: the amended behavior at three concrete input
functions. -/
theorem c10_witness :
    compileTaskInput (fun _ => PyObj.other true)
      = ([Mode.train],
         .error ("input_fn must return a efl.Sample or efl.FederalSample for TRAIN")) ∧
    (compileTaskInput (fun m => match m with
        | Mode.train => PyObj.sample
        | Mode.eval => PyObj.other true)).2
      = .error ("input_fn must return a efl.Sample or efl.FederalSample for EVAL") ∧
    (compileTaskInput (fun _ => PyObj.federalSample)).2
      = .ok [(Mode.train, PyObj.federalSample), (Mode.eval, PyObj.federalSample)] ∧
    (compileTaskInput (fun m => match m with
        | Mode.train => PyObj.sample
        | Mode.eval => PyObj.other false)).2
      = .ok [(Mode.train, PyObj.sample)] :=
  ⟨(c10_input_invocation (fun _ => PyObj.other true)).1 rfl,
   ((c10_input_invocation (fun m => match m with
        | Mode.train => PyObj.sample
        | Mode.eval => PyObj.other true)).2 rfl).2.1 rfl rfl,
   ((c10_input_invocation (fun _ => PyObj.federalSample)).2 rfl).2.2.1 rfl rfl,
   ((c10_input_invocation (fun m => match m with
        | Mode.train => PyObj.sample
        | Mode.eval => PyObj.other false)).2 rfl).2.2.2 rfl⟩

/-- Helper: whenever matching received values exist, the peer block pops
BACKEND_MODE, so the key is absent from the dict it returns. -/
theorem peerPhase_cfg_lookup (oracle : GradOracle) (rg : List (String × Tensor))
    (lossList gradLoss : List (Option Tensor)) (cfg : OptDict) (h : rg ≠ []) :
    List.lookup ("BACKEND_MODE") (peerPhase oracle rg lossList gradLoss cfg).cfg = none := by
  rw [peerPhase, if_pos (List.length_pos.mpr h)]
  cases hpc : peerCombinedGrads oracle (rg.map Prod.snd) lossList gradLoss
      (dictPop cfg ("BACKEND_MODE") (ConfigVal.s "noise")).1 with
  | error e => exact lookup_filter_self ("BACKEND_MODE") cfg
  | ok sg => exact lookup_filter_self ("BACKEND_MODE") cfg

/-- Helper: the peer block never adds keys, so an absent key stays
absent. -/
theorem peerPhase_preserves_none (oracle : GradOracle) (rg : List (String × Tensor))
    (lossList gradLoss : List (Option Tensor)) (cfg : OptDict) (k : String)
    (h : List.lookup k cfg = none) :
    List.lookup k (peerPhase oracle rg lossList gradLoss cfg).cfg = none := by
  rw [peerPhase]
  by_cases hl : rg.length > 0
  · rw [if_pos hl]
    cases hpc : peerCombinedGrads oracle (rg.map Prod.snd) lossList gradLoss
        (dictPop cfg ("BACKEND_MODE") (ConfigVal.s "noise")).1 with
    | error e => exact lookup_none_filter k _ cfg h
    | ok sg => exact lookup_none_filter k _ cfg h
  · rw [if_neg hl]
    exact h

/-- Helper: whenever matching received values exist, the BACKEND_MODE
value the peer block reads is the stored value or the pop default. -/
theorem peerPhase_backendUsed (oracle : GradOracle) (rg : List (String × Tensor))
    (lossList gradLoss : List (Option Tensor)) (cfg : OptDict) (h : rg ≠ []) :
    (peerPhase oracle rg lossList gradLoss cfg).backendUsed
      = some ((List.lookup ("BACKEND_MODE") cfg).getD (ConfigVal.s "noise")) := by
  rw [peerPhase, if_pos (List.length_pos.mpr h)]
  cases hpc : peerCombinedGrads oracle (rg.map Prod.snd) lossList gradLoss
      (dictPop cfg ("BACKEND_MODE") (ConfigVal.s "noise")).1 with
  | error e => simp [dictPop]
  | ok sg => simp [dictPop]

/-- Helper: the assembly step never adds keys to the dict. -/
theorem assemble_cfg_lookup_none (loss : Option Tensor) (rg : List (Tensor × Tensor))
    (hasOpt : Bool) (cfg : OptDict) (k : String) (h : List.lookup k cfg = none) :
    List.lookup k (assembleLossSources loss rg hasOpt cfg).cfg = none := by
  simp only [assembleLossSources]
  by_cases h1 : lossInSendOps loss (List.map Prod.fst rg) = true
  · rw [if_pos h1]
    exact h
  · rw [if_neg h1]
    by_cases h2 : hasOpt = true
    · rw [if_pos h2]
      exact h
    · rw [if_neg h2]
      exact lookup_none_filter k _ cfg h

/-- C3, counterexample: in noise mode with two loss sources (the local
loss and one sent value) and one matching received value whose gradient
is defined under the first source but undefined under the second, the
strict tf.add combination raises a ValueError before the reply loop, so
the matching received value gets no gradient message at all and the
exception escapes _minimize. -/
theorem c3_counterexample :
    get_recv_grad_vars inC3x.recvRecords inC3x.varScope = [("act", Tensor.node 3)] ∧
    (federalMinimize inC3x).sends = [] ∧
    (federalMinimize inC3x).result
      = .error (PyErr.valueError "None values not supported.") := by
  decide

/-- C3, amended: whenever matching received values exist and the
peer-gradient combination itself does not raise (it does raise when the
noise-mode strict sum meets an undefined per-source gradient across two
or more contributing sources, and when direct mode sees an absent loss
source), one _minimize call sends exactly one gradient message per
matching received value, named name_grad, carrying the combined gradient
when it is defined and a zeros_like of the received value otherwise. -/
theorem c3_one_reply_per_recv (inp : MinInput) (sg : List (Option Tensor))
    (h1 : get_recv_grad_vars inp.recvRecords inp.varScope ≠ [])
    (h2 : peerCombinedGrads inp.gradOracle
            ((get_recv_grad_vars inp.recvRecords inp.varScope).map Prod.snd)
            (assembleLossSources inp.loss inp.requireGradOps
              inp.hasOptConfigParam inp.cfg).lossList
            (assembleLossSources inp.loss inp.requireGradOps
              inp.hasOptConfigParam inp.cfg).gradLoss
            (dictPop (assembleLossSources inp.loss inp.requireGradOps
              inp.hasOptConfigParam inp.cfg).cfg
              ("BACKEND_MODE") (ConfigVal.s "noise")).1
          = .ok sg) :
    (federalMinimize inp).sends
      = peerSendList (get_recv_grad_vars inp.recvRecords inp.varScope) sg ∧
    sg.length = (get_recv_grad_vars inp.recvRecords inp.varScope).length ∧
    (federalMinimize inp).sends.map Prod.fst
      = (get_recv_grad_vars inp.recvRecords inp.varScope).map
          (fun r => r.1 ++ "_grad") := by
  have hpos : 0 < (get_recv_grad_vars inp.recvRecords inp.varScope).length :=
    List.length_pos.mpr h1
  have hlen : sg.length = (get_recv_grad_vars inp.recvRecords inp.varScope).length := by
    have hx := peerCombinedGrads_length inp.gradOracle
      ((get_recv_grad_vars inp.recvRecords inp.varScope).map Prod.snd)
      (assembleLossSources inp.loss inp.requireGradOps
        inp.hasOptConfigParam inp.cfg).lossList
      (assembleLossSources inp.loss inp.requireGradOps
        inp.hasOptConfigParam inp.cfg).gradLoss
      (dictPop (assembleLossSources inp.loss inp.requireGradOps
        inp.hasOptConfigParam inp.cfg).cfg
        ("BACKEND_MODE") (ConfigVal.s "noise")).1 sg h2
    simpa using hx
  have hsends : (federalMinimize inp).sends
      = peerSendList (get_recv_grad_vars inp.recvRecords inp.varScope) sg := by
    simp only [federalMinimize, peerPhase]
    rw [if_pos hpos, h2]
  exact ⟨hsends, hlen, by
    rw [hsends]
    exact peerSendList_names (get_recv_grad_vars inp.recvRecords inp.varScope) sg hlen.symm⟩

/-- C3, witness: a single local loss source, one matching received
value, noise mode; the reply list is exactly one message named
act_grad. -/
theorem c3_witness :
    (federalMinimize inC3w).sends
      = peerSendList (get_recv_grad_vars inC3w.recvRecords inC3w.varScope)
          [some (Tensor.node 7)] ∧
    ([some (Tensor.node 7)] : List (Option Tensor)).length
      = (get_recv_grad_vars inC3w.recvRecords inC3w.varScope).length ∧
    (federalMinimize inC3w).sends.map Prod.fst
      = (get_recv_grad_vars inC3w.recvRecords inC3w.varScope).map
          (fun r => r.1 ++ "_grad") :=
  c3_one_reply_per_recv inC3w [some (Tensor.node 7)] (by decide) (by decide)

/-- C5, counterexample: a binding with no SendRecords and a defined
local loss, but with one received value requiring a gradient that
matches the binding scope: the federated minimize sends a gradient
message while the non-federated Model._minimize never touches the
network, so the two are not equivalent under the hypotheses of the
claim. -/
theorem c5_counterexample :
    inC5x.requireGradOps = [] ∧
    inC5x.loss = some (Tensor.node 0) ∧
    (federalMinimize inC5x).sends = [("act_grad", Tensor.node 7)] ∧
    (modelMinimize inC5x).sends = [] ∧
    (federalMinimize inC5x).sends ≠ (modelMinimize inC5x).sends := by
  decide

/-- C5, amended: for a binding of a task with no SendRecords, no
received values requiring a gradient that match the binding scope, a
defined local loss, and an optimizer apply step that succeeds,
FederalModel._minimize coincides with the non-federated Model._minimize
on every observable: the same reduction and configuration reads, the
same gradient computation of the single reduced loss with no upstream
gradient, the same applied result, and no network send. -/
theorem c5_degenerates_to_local_minimize (inp : MinInput) (l : Tensor)
    (h1 : inp.requireGradOps = [])
    (h2 : get_recv_grad_vars inp.recvRecords inp.varScope = [])
    (h3 : inp.loss = some l)
    (h4 : ∃ r, (modelMinimize inp).result = .ok r) :
    federalMinimize inp = modelMinimize inp := by
  obtain ⟨r, hr⟩ := h4
  have hnotin : lossInSendOps inp.loss (List.map Prod.fst inp.requireGradOps) = false := by
    rw [h3, h1]
    rfl
  cases hop : inp.hasOptConfigParam with
  | true =>
    have hres : applyGradients (inp.varList.map (fun v => (inp.gradOracle l none v, v)))
        = .ok r := by
      rw [modelMinimize, hop] at hr
      simp only [h3] at hr
      simpa using hr
    apply MinOut.ext <;>
      simp [federalMinimize, modelMinimize, assembleLossSources, peerPhase, localPhase,
        perSourceGrads, localCombine, safe_slice_add, lossInSendOps,
        h1, h2, h3, hop, zip_map_self, hres]
  | false =>
    obtain ⟨l2, hl2⟩ :=
      reduceLossSym_isSome l (dictPop inp.cfg ("REDUCE") (ConfigVal.s "mean")).1
    have hres : applyGradients (inp.varList.map (fun v => (inp.gradOracle l2 none v, v)))
        = .ok r := by
      rw [modelMinimize, hop] at hr
      simp only [h3, hl2] at hr
      simpa using hr
    apply MinOut.ext <;>
      simp [federalMinimize, modelMinimize, assembleLossSources, peerPhase, localPhase,
        perSourceGrads, localCombine, safe_slice_add, lossInSendOps,
        h1, h2, h3, hop, hl2, zip_map_self, hres]

/-- C5, witness: the equivalence at a concrete binding with one
variable, no records, and a defined gradient. -/
theorem c5_witness : federalMinimize inC5 = modelMinimize inC5 :=
  c5_degenerates_to_local_minimize inC5 (Tensor.node 0) (by decide) (by decide)
    (by decide) ⟨[(Tensor.node 7, Tensor.node 4)], by decide⟩

/-- Concrete binding input whose opt_config dict holds neither key: the
state the shared dict is in after an earlier binding popped both. -/
def inC6w : MinInput :=
  { loss := some (Tensor.node 0)
    requireGradOps := []
    recvRecords := [⟨"act", Tensor.node 3, "scope"⟩]
    varList := [Tensor.node 4]
    varScope := "scope"
    hasOptConfigParam := false
    gradOracle := fun _ _ _ => some (Tensor.node 7)
    cfg := [] }

/-- C6, counterexample: the claim says that in any compile with two or
more bindings only the first binding observes a user-supplied
BACKEND_MODE and every later one reads the default noise.  Here the
first binding has no matching received values, so it never pops
BACKEND_MODE; the second binding, fed the shared dict exactly as the
first left it, still observes the user-supplied value direct. -/
theorem c6_counterexample :
    inC6b.cfg = (federalMinimize inC6a).cfg ∧
    (federalMinimize inC6a).backendUsed = none ∧
    (federalMinimize inC6b).backendUsed = some (ConfigVal.s "direct") := by
  decide

/-- C6, amended: _minimize pops REDUCE from the shared opt_config dict
exactly when it reduces the loss (optimizer without an opt_config
parameter and loss not among the sent values) and pops BACKEND_MODE
exactly when matching received values exist; a popped key is absent from
the dict afterwards, so any later binding of the same compile whose call
reaches the same pop reads the pop default (noise, mean) regardless of
the user configuration.  In particular, when every binding reaches the
pops, only the first observes a user-supplied value. -/
theorem c6_shared_config_pops :
    (∀ inp : MinInput, get_recv_grad_vars inp.recvRecords inp.varScope ≠ [] →
      List.lookup ("BACKEND_MODE") (federalMinimize inp).cfg = none) ∧
    (∀ inp : MinInput, inp.hasOptConfigParam = false →
      lossInSendOps inp.loss (List.map Prod.fst inp.requireGradOps) = false →
      List.lookup ("REDUCE") (federalMinimize inp).cfg = none) ∧
    (∀ inp : MinInput, List.lookup ("BACKEND_MODE") inp.cfg = none →
      get_recv_grad_vars inp.recvRecords inp.varScope ≠ [] →
      (federalMinimize inp).backendUsed = some (ConfigVal.s "noise")) ∧
    (∀ inp : MinInput, List.lookup ("REDUCE") inp.cfg = none →
      inp.hasOptConfigParam = false →
      lossInSendOps inp.loss (List.map Prod.fst inp.requireGradOps) = false →
      (federalMinimize inp).reduceUsed = some (ConfigVal.s "mean")) := by
  refine ⟨?_, ?_, ?_, ?_⟩
  · intro inp h
    simp only [federalMinimize]
    exact peerPhase_cfg_lookup inp.gradOracle _ _ _ _ h
  · intro inp hop hin
    simp only [federalMinimize]
    apply peerPhase_preserves_none
    rw [assembleLossSources]
    rw [if_neg (by rw [hin]; simp)]
    rw [if_neg (by rw [hop]; simp)]
    exact lookup_filter_self ("REDUCE") inp.cfg
  · intro inp hnone h
    simp only [federalMinimize]
    rw [peerPhase_backendUsed inp.gradOracle _ _ _ _ h]
    rw [assemble_cfg_lookup_none inp.loss inp.requireGradOps inp.hasOptConfigParam
      inp.cfg ("BACKEND_MODE") hnone]
    rfl
  · intro inp hnone hop hin
    simp only [federalMinimize]
    rw [assembleLossSources]
    rw [if_neg (by rw [hin]; simp)]
    rw [if_neg (by rw [hop]; simp)]
    simp [dictPop, hnone]

/-- C6, witness: a binding reading from a dict both keys of which were
already popped: BACKEND_MODE comes back as noise and REDUCE as mean. -/
theorem c6_witness :
    List.lookup ("BACKEND_MODE") (federalMinimize inC6w).cfg = none ∧
    List.lookup ("REDUCE") (federalMinimize inC6w).cfg = none ∧
    (federalMinimize inC6w).backendUsed = some (ConfigVal.s "noise") ∧
    (federalMinimize inC6w).reduceUsed = some (ConfigVal.s "mean") :=
  ⟨c6_shared_config_pops.1 inC6w (by decide),
   c6_shared_config_pops.2.1 inC6w rfl (by decide),
   c6_shared_config_pops.2.2.1 inC6w rfl (by decide),
   c6_shared_config_pops.2.2.2 inC6w rfl rfl (by decide)⟩
